import Mathlib

/-!
# Model of the Dolphin Spa booking backend (`server1.js`)

A shallow embedding of the Express + PostgreSQL backend in `src/server1.js`.
JSON values reaching a handler are modelled by `JVal`, the relational store by
`Store`, and each route handler by a pure function from the store and the
parsed request to the new store and the HTTP outcome (success path of the
store client).  The `catch` branches of the handlers are modelled separately
by per-endpoint 500-response builders taking the underlying store error
message.
-/

/-- A JSON/JavaScript value as it reaches a handler after `express.json()`
parsing and destructuring.  A field missing from the request body
destructures to `undef`.  `nan` models the JavaScript number `NaN`; every
other number is modelled by a rational. -/
inductive JVal where
  | undef
  | null
  | nan
  | bool (b : Bool)
  | num (q : ℚ)
  | str (s : String)
deriving DecidableEq, Repr

/-- JavaScript truthiness, as used by the `!field` validation checks. -/
def JVal.truthy : JVal → Bool
  | .undef => false
  | .null => false
  | .nan => false
  | .bool b => b
  | .num q => q != 0
  | .str s => s != ""

/-- Value of a list of decimal digits. -/
def digitsToNat (l : List Char) : Nat :=
  l.foldl (fun a c => a * 10 + (c.toNat - 48)) 0

/-- An unsigned decimal literal, possibly with a fractional part. -/
def parseUnsignedDec (l : List Char) : Option ℚ :=
  match l.span (·.isDigit) with
  | (intPart, []) =>
      if intPart.isEmpty then none else some (digitsToNat intPart : ℚ)
  | (intPart, '.' :: frac) =>
      if frac.all (·.isDigit) && !(intPart.isEmpty && frac.isEmpty) then
        some ((digitsToNat intPart : ℚ) + (digitsToNat frac : ℚ) / (10 : ℚ) ^ frac.length)
      else none
  | _ => none

/-- JavaScript `ToNumber` on a string, restricted to plain signed decimal
literals; any other non-blank string converts to `NaN` (`none`). -/
def strToNumber (s : String) : Option ℚ :=
  let t := s.trim
  if t = "" then some 0
  else
    match t.data with
    | '-' :: rest => (parseUnsignedDec rest).map (fun q => -q)
    | '+' :: rest => parseUnsignedDec rest
    | l => parseUnsignedDec l

/-- JavaScript `ToNumber`; `none` stands for `NaN`. -/
def JVal.toNumber : JVal → Option ℚ
  | .undef => none
  | .nan => none
  | .null => some 0
  | .bool b => some (if b then 1 else 0)
  | .num q => some q
  | .str s => strToNumber s

/-- The comparison `v < c` as JavaScript evaluates it against a numeric
constant: a comparison involving `NaN` is false. -/
def JVal.ltNum (v : JVal) (c : ℚ) : Bool :=
  match v.toNumber with
  | some q => q < c
  | none => false

/-- The comparison `v > c` as JavaScript evaluates it against a numeric
constant: a comparison involving `NaN` is false. -/
def JVal.gtNum (v : JVal) (c : ℚ) : Bool :=
  match v.toNumber with
  | some q => c < q
  | none => false

/-- JavaScript template-literal interpolation of a value.  Only the
integer-number and string cases are ever relied upon below. -/
def JVal.display : JVal → String
  | .undef => "undefined"
  | .null => "null"
  | .nan => "NaN"
  | .bool b => if b then "true" else "false"
  | .num q => if q.den = 1 then toString q.num else toString q
  | .str s => s

/-- A row of the `bookings4` table: `id` is the serial primary key,
`booking_time` the server-set creation timestamp (`DEFAULT NOW()`), and the
six client-supplied columns are stored as received. -/
structure Booking where
  id : Nat
  service : JVal
  duration : JVal
  price : JVal
  name : JVal
  phone : JVal
  datetime : JVal
  payment_status : String
  booking_time : ℚ
deriving DecidableEq, Repr

/-- A row of the `testimonials` table. -/
structure Testimonial where
  id : Nat
  reviewer_name : JVal
  reviewer_email : JVal
  review_title : JVal
  review_text : JVal
  rating : JVal
  genuine_opinion : JVal
  created_at : ℚ
deriving DecidableEq, Repr

/-- The relational store: the two tables, their serial-id counters, and the
server clock (`NOW()`). -/
structure Store where
  bookings : List Booking
  nextBookingId : Nat
  testimonials : List Testimonial
  nextTestimonialId : Nat
  now : ℚ
deriving DecidableEq, Repr

/-- The empty store the service starts from. -/
def Store.init : Store := ⟨[], 1, [], 1, 0⟩

/-- A JSON response body. -/
inductive Body where
  | errObj (error : String)
  | msgObj (message : String)
  | bookingObj (b : Booking)
  | bookingList (l : List Booking)
  | testimonialObj (t : Testimonial)
  | testimonialList (l : List Testimonial)
  | initiateObj (message qrCodeUrl transactionId status : String)
deriving DecidableEq, Repr

/-- What a handler does with a request: send an HTTP response, or raise an
uncaught JavaScript error, in which case no response is ever sent. -/
inductive Outcome where
  | resp (status : Nat) (body : Body)
  | jsError (msg : String)
deriving DecidableEq, Repr

/-- The HTTP status of an outcome (`none` when no response was sent). -/
def Outcome.statusOf : Outcome → Option Nat
  | .resp s _ => some s
  | .jsError _ => none

/-- The destructured body of `POST /bookings4`. -/
structure BookingReq where
  service : JVal
  duration : JVal
  price : JVal
  name : JVal
  phone : JVal
  datetime : JVal
deriving DecidableEq, Repr

/-- The destructured body of `POST /api/payments/initiate`. -/
structure InitiateReq where
  amount : JVal
  serviceName : JVal
  bookingId : JVal
deriving DecidableEq, Repr

/-- The destructured body of `POST /api/testimonials`. -/
structure TestimonialReq where
  reviewerName : JVal
  reviewerEmail : JVal
  reviewTitle : JVal
  reviewText : JVal
  rating : JVal
  genuineOpinion : JVal
deriving DecidableEq, Repr

/-- The sort key used by `ORDER BY datetime DESC`: the timestamp value of the
stored `datetime` column. -/
def dtKey (b : Booking) : ℚ := (b.datetime.toNumber).getD 0

/-- `a` comes no later than `b` in `ORDER BY datetime DESC` order. -/
def dtGe (a b : Booking) : Prop := dtKey b ≤ dtKey a

instance : DecidableRel dtGe :=
  fun a b => inferInstanceAs (Decidable (dtKey b ≤ dtKey a))

instance : IsTotal Booking dtGe := ⟨fun a b => le_total (dtKey b) (dtKey a)⟩

instance : IsTrans Booking dtGe := ⟨fun _ _ _ h1 h2 => le_trans h2 h1⟩

/-- The row list `GET /bookings4` responds with:
`SELECT * FROM bookings4 ORDER BY datetime DESC`. -/
def listedBookings (s : Store) : List Booking :=
  s.bookings.insertionSort dtGe

/-- `GET /bookings4`. -/
def getBookings (s : Store) : Outcome :=
  .resp 200 (.bookingList (listedBookings s))

/-- The row the booking insert produces (`RETURNING *`): the generated serial
id, the six client-supplied columns, `payment_status` defaulting to
`'pending'` and `booking_time` to `NOW()`. -/
def newBookingRow (s : Store) (r : BookingReq) : Booking :=
  { id := s.nextBookingId, service := r.service, duration := r.duration,
    price := r.price, name := r.name, phone := r.phone,
    datetime := r.datetime, payment_status := "pending",
    booking_time := s.now }

/-- `POST /bookings4`: presence validation, then
`INSERT INTO bookings4(service, duration, price, name, phone, datetime)
VALUES($1,...,$6) RETURNING *`. -/
def postBooking (s : Store) (r : BookingReq) : Store × Outcome :=
  if !r.service.truthy || !r.duration.truthy || !r.price.truthy ||
     !r.name.truthy || !r.phone.truthy || !r.datetime.truthy then
    (s, .resp 400 (.errObj "All booking fields are required."))
  else
    let row := newBookingRow s r
    ({ s with bookings := s.bookings ++ [row],
              nextBookingId := s.nextBookingId + 1 },
     .resp 201 (.bookingObj row))

/-- `DELETE /bookings4/:id` — `DELETE FROM bookings4 WHERE id = $1
RETURNING id`, then 404 when `rowCount` is zero.  The path parameter is the
integer primary key. -/
def deleteBooking (s : Store) (id : Nat) : Store × Outcome :=
  if s.bookings.all (fun b => b.id != id) then
    (s, .resp 404 (.errObj ("Booking with ID " ++ toString id ++ " not found.")))
  else
    ({ s with bookings := s.bookings.filter (fun b => b.id != id) },
     .resp 200 (.msgObj ("Booking with ID " ++ toString id ++ " deleted successfully.")))

/-- `POST /api/payments/initiate`.  The two lines binding
`simulatedQrCodeUrl` and `transactionId` are commented out in the source
(lines 138-139), so the success branch of the handler evaluates an unbound
identifier and raises a `ReferenceError` inside the `setTimeout` callback:
no response is sent.  Only the missing-field branch ever answers. -/
def initiatePayment (r : InitiateReq) : Outcome :=
  if !r.amount.truthy || !r.serviceName.truthy || !r.bookingId.truthy then
    .resp 400 (.errObj "Payment amount, service name, and booking ID are required to initiate payment.")
  else
    .jsError "ReferenceError: simulatedQrCodeUrl is not defined"

/-- The initiate handler as a store transformer: its body contains no store
call at all. -/
def initiateHandler (s : Store) (r : InitiateReq) : Store × Outcome :=
  (s, initiatePayment r)

/-- Does the JSON value `v` (the request's `bookingId`) match the integer
primary key `id`, as `WHERE id = $2` compares them after coercion. -/
def idMatches (v : JVal) (id : Nat) : Bool :=
  v.toNumber == some (id : ℚ)

/-- Row transformation of `UPDATE bookings4 SET payment_status = 'completed'
WHERE id = $2`: a matching row has its status set, any other row is kept. -/
def completeIfMatch (v : JVal) (b : Booking) : Booking :=
  if idMatches v b.id then { b with payment_status := "completed" } else b

/-- `POST /api/payments/confirm` — `UPDATE bookings4 SET payment_status = $1
WHERE id = $2 RETURNING *` with `$1 = 'completed'`; 404 when no row
matched. -/
def confirmPayment (s : Store) (bookingId : JVal) : Store × Outcome :=
  if !bookingId.truthy then
    (s, .resp 400 (.errObj "Booking ID is required to confirm payment."))
  else if s.bookings.all (fun b => !(idMatches bookingId b.id)) then
    (s, .resp 404 (.errObj ("Booking with ID " ++ bookingId.display ++
      " not found for payment confirmation.")))
  else
    ({ s with bookings := s.bookings.map (completeIfMatch bookingId) },
     .resp 200 (.msgObj ("Payment for booking ID " ++ bookingId.display ++
       " confirmed successfully.")))

/-- `POST /api/testimonials`: presence validation (`genuineOpinion` is
checked only against `undefined`, all other required fields with `!`), the
range check `rating < 1 || rating > 5`, then the insert with
`created_at = NOW()`. -/
def postTestimonial (s : Store) (r : TestimonialReq) : Store × Outcome :=
  if !r.reviewerName.truthy || !r.reviewerEmail.truthy || !r.reviewText.truthy ||
     !r.rating.truthy || r.genuineOpinion == JVal.undef then
    (s, .resp 400 (.errObj "All testimonial fields (except title) are required."))
  else if r.rating.ltNum 1 || r.rating.gtNum 5 then
    (s, .resp 400 (.errObj "Rating must be between 1 and 5."))
  else
    let row : Testimonial :=
      { id := s.nextTestimonialId, reviewer_name := r.reviewerName,
        reviewer_email := r.reviewerEmail, review_title := r.reviewTitle,
        review_text := r.reviewText, rating := r.rating,
        genuine_opinion := r.genuineOpinion, created_at := s.now }
    ({ s with testimonials := s.testimonials ++ [row],
              nextTestimonialId := s.nextTestimonialId + 1 },
     .resp 201 (.testimonialObj row))

/-- `a` comes no later than `b` in `ORDER BY created_at DESC` order. -/
def caGe (a b : Testimonial) : Prop := b.created_at ≤ a.created_at

instance : DecidableRel caGe :=
  fun a b => inferInstanceAs (Decidable (b.created_at ≤ a.created_at))

/-- `GET /api/testimonials` — `SELECT * FROM testimonials ORDER BY created_at
DESC`. -/
def getTestimonials (s : Store) : Outcome :=
  .resp 200 (.testimonialList (s.testimonials.insertionSort caGe))

/-- `DELETE /api/testimonials/:id` — `DELETE FROM testimonials WHERE id = $1
RETURNING id`, then 404 when `rowCount` is zero. -/
def deleteTestimonial (s : Store) (id : Nat) : Store × Outcome :=
  if s.testimonials.all (fun t => t.id != id) then
    (s, .resp 404 (.errObj ("Testimonial with ID " ++ toString id ++ " not found.")))
  else
    ({ s with testimonials := s.testimonials.filter (fun t => t.id != id) },
     .resp 200 (.msgObj ("Testimonial with ID " ++ toString id ++ " deleted successfully.")))

/-- `catch` branch of `GET /bookings4`, as a function of `err.message`. -/
def getBookingsDbError (_e : String) : Outcome :=
  .resp 500 (.errObj "Failed to retrieve bookings from the database.")

/-- `catch` branch of `POST /bookings4`. -/
def postBookingDbError (_e : String) : Outcome :=
  .resp 500 (.errObj "Failed to add booking to the database.")

/-- `catch` branch of `DELETE /bookings4/:id`. -/
def deleteBookingDbError (_e : String) : Outcome :=
  .resp 500 (.errObj "Failed to delete booking from the database.")

/-- `catch` branch of `POST /api/payments/confirm`. -/
def confirmPaymentDbError (_e : String) : Outcome :=
  .resp 500 (.errObj "Failed to update payment status in the database.")

/-- `catch` branch of `POST /api/testimonials`. -/
def postTestimonialDbError (_e : String) : Outcome :=
  .resp 500 (.errObj "Failed to add testimonial to the database.")

/-- `catch` branch of `GET /api/testimonials`. -/
def getTestimonialsDbError (_e : String) : Outcome :=
  .resp 500 (.errObj "Failed to retrieve testimonials from the database.")

/-- `catch` branch of `DELETE /api/testimonials/:id`: the only one whose
response interpolates `err.message || 'Unknown database error'`. -/
def deleteTestimonialDbError (e : String) : Outcome :=
  .resp 500 (.errObj ("Failed to delete testimonial from the database: " ++
    (if e = "" then "Unknown database error" else e)))

/-- One client request, as it affects the store. -/
inductive Op where
  | listB
  | createB (r : BookingReq)
  | delB (id : Nat)
  | initiate (r : InitiateReq)
  | confirm (bookingId : JVal)
  | createT (r : TestimonialReq)
  | listT
  | delT (id : Nat)
  | tick (t : ℚ)

/-- The store after serving one request (success path of the store client). -/
def applyOp (s : Store) : Op → Store
  | .listB => s
  | .createB r => (postBooking s r).1
  | .delB id => (deleteBooking s id).1
  | .initiate r => (initiateHandler s r).1
  | .confirm v => (confirmPayment s v).1
  | .createT r => (postTestimonial s r).1
  | .listT => s
  | .delT id => (deleteTestimonial s id).1
  | .tick t => { s with now := t }

/-- Is this request a payment confirmation? -/
def Op.isConfirm : Op → Bool
  | .confirm _ => true
  | _ => false

/-- One service step. -/
def Step (s s' : Store) : Prop := ∃ op : Op, applyOp s op = s'

/-- Store states reachable from the empty store. -/
def Reachable (s : Store) : Prop := Relation.ReflTransGen Step Store.init s

/-- All six booking fields pass the `!field` presence check. -/
def validBookingReq (r : BookingReq) : Bool :=
  r.service.truthy && r.duration.truthy && r.price.truthy &&
  r.name.truthy && r.phone.truthy && r.datetime.truthy

/-- A concrete valid booking request. -/
def sampleBookingReq : BookingReq :=
  { service := .str "Massage", duration := .str "60m", price := .num 50,
    name := .str "Ana", phone := .str "555-1234", datetime := .num 1735725600 }

/-- A store holding the single sample booking, with id 1. -/
def storeWithBooking : Store := (postBooking Store.init sampleBookingReq).1

/-- A testimonial request with all text fields valid, `genuineOpinion` true,
and the given rating value. -/
def ratingReqWith (v : JVal) : TestimonialReq :=
  { reviewerName := .str "Ana", reviewerEmail := .str "ana@example.com",
    reviewTitle := .str "Great", reviewText := .str "Lovely spa",
    rating := v, genuineOpinion := .bool true }

/-- Structural invariant of the booking table: every id is below the serial
counter, ids are pairwise distinct, and every payment status is one of the
two enumeration values. -/
def StoreInv (s : Store) : Prop :=
  (∀ b ∈ s.bookings, b.id < s.nextBookingId) ∧
  (s.bookings.map (fun b => b.id)).Nodup ∧
  (∀ b ∈ s.bookings, b.payment_status = "pending" ∨ b.payment_status = "completed")

/-! ## Handler characterizations -/


theorem booking_cond_eq (r : BookingReq) :
    (!r.service.truthy || !r.duration.truthy || !r.price.truthy ||
     !r.name.truthy || !r.phone.truthy || !r.datetime.truthy) = !validBookingReq r := by
  unfold validBookingReq
  cases r.service.truthy <;> cases r.duration.truthy <;> cases r.price.truthy <;>
    cases r.name.truthy <;> cases r.phone.truthy <;> cases r.datetime.truthy <;> rfl

theorem postBooking_eq (s : Store) (r : BookingReq) :
    postBooking s r =
      if validBookingReq r = false then
        (s, .resp 400 (.errObj "All booking fields are required."))
      else
        ({ s with bookings := s.bookings ++ [newBookingRow s r],
                  nextBookingId := s.nextBookingId + 1 },
         .resp 201 (.bookingObj (newBookingRow s r))) := by
  unfold postBooking
  rw [booking_cond_eq]
  cases h : validBookingReq r <;> simp [h]

/-! ## Claim theorems (first group) -/

/-- C1: a fully populated `POST /api/payments/initiate` request does not get
the documented 200 response with message, QR-code URL, transaction id and
status `"pending"`: the success branch of the handler dereferences the
unbound identifier `simulatedQrCodeUrl` (its binding is commented out in the
source) and raises a `ReferenceError`, so no response is sent at all. -/
theorem initiate_valid_request_raises_reference_error :
    initiatePayment { amount := .str "$50.00", serviceName := .str "Massage",
                      bookingId := .num 1 } =
      .jsError "ReferenceError: simulatedQrCodeUrl is not defined" := rfl

/-- C4: `POST /bookings4` rejects with 400 and leaves the store untouched when
any of the six fields is missing or falsy; otherwise it inserts exactly one
row whose client-supplied fields equal the input, whose `payment_status` is
`"pending"` and whose id is the generated serial id, and responds 201 with
the full persisted record. -/
theorem create_booking_spec (s : Store) (r : BookingReq) :
    (validBookingReq r = false →
      postBooking s r = (s, .resp 400 (.errObj "All booking fields are required."))) ∧
    (validBookingReq r = true →
      postBooking s r =
        ({ s with bookings := s.bookings ++ [newBookingRow s r],
                  nextBookingId := s.nextBookingId + 1 },
         .resp 201 (.bookingObj (newBookingRow s r))) ∧
      (newBookingRow s r).service = r.service ∧
      (newBookingRow s r).duration = r.duration ∧
      (newBookingRow s r).price = r.price ∧
      (newBookingRow s r).name = r.name ∧
      (newBookingRow s r).phone = r.phone ∧
      (newBookingRow s r).datetime = r.datetime ∧
      (newBookingRow s r).payment_status = "pending" ∧
      (newBookingRow s r).id = s.nextBookingId) := by
  constructor
  · intro h
    rw [postBooking_eq]
    simp [h]
  · intro h
    rw [postBooking_eq]
    simp [h, newBookingRow]


theorem create_booking_spec_witness :
    validBookingReq sampleBookingReq = true ∧
    postBooking Store.init sampleBookingReq =
      ({ Store.init with
          bookings := [newBookingRow Store.init sampleBookingReq],
          nextBookingId := 2 },
       .resp 201 (.bookingObj (newBookingRow Store.init sampleBookingReq))) :=
  ⟨rfl, ((create_booking_spec Store.init sampleBookingReq).2 rfl).1⟩

/-- C8: `POST /api/payments/initiate` never modifies the store — the handler
contains no store call, so the state after handling any request equals the
state before and no transaction record is persisted — and a request missing
`amount`, `serviceName` or `bookingId` is answered 400. -/
theorem initiate_frame (s : Store) (r : InitiateReq) :
    (initiateHandler s r).1 = s ∧
    ((r.amount.truthy = false ∨ r.serviceName.truthy = false ∨
      r.bookingId.truthy = false) →
      (initiateHandler s r).2 =
        .resp 400 (.errObj "Payment amount, service name, and booking ID are required to initiate payment.")) := by
  refine ⟨rfl, ?_⟩
  intro h
  unfold initiateHandler initiatePayment
  rcases h with h | h | h <;> simp [h]

theorem initiate_frame_witness :
    (initiateHandler Store.init { amount := .undef, serviceName := .str "Massage",
                                  bookingId := .num 1 }).1 = Store.init ∧
    (initiateHandler Store.init { amount := .undef, serviceName := .str "Massage",
                                  bookingId := .num 1 }).2 =
      .resp 400 (.errObj "Payment amount, service name, and booking ID are required to initiate payment.") :=
  ⟨(initiate_frame Store.init _).1, (initiate_frame Store.init _).2 (Or.inl rfl)⟩

/-- C9: the 500 response of `DELETE /api/testimonials/:id` embeds the
underlying store error message, while the 500 response of every other
endpoint is a fixed generic message that does not depend on the error. -/
theorem testimonial_delete_error_leak (e : String) (he : e ≠ "") :
    deleteTestimonialDbError e =
      .resp 500 (.errObj ("Failed to delete testimonial from the database: " ++ e)) ∧
    getBookingsDbError e = .resp 500 (.errObj "Failed to retrieve bookings from the database.") ∧
    postBookingDbError e = .resp 500 (.errObj "Failed to add booking to the database.") ∧
    deleteBookingDbError e = .resp 500 (.errObj "Failed to delete booking from the database.") ∧
    confirmPaymentDbError e = .resp 500 (.errObj "Failed to update payment status in the database.") ∧
    postTestimonialDbError e = .resp 500 (.errObj "Failed to add testimonial to the database.") ∧
    getTestimonialsDbError e = .resp 500 (.errObj "Failed to retrieve testimonials from the database.") := by
  refine ⟨?_, rfl, rfl, rfl, rfl, rfl, rfl⟩
  unfold deleteTestimonialDbError
  rw [if_neg he]

theorem testimonial_delete_error_leak_witness :
    deleteTestimonialDbError "connection reset" =
      .resp 500 (.errObj ("Failed to delete testimonial from the database: " ++ "connection reset")) :=
  (testimonial_delete_error_leak "connection reset" (by decide)).1

theorem completeIfMatch_id (v : JVal) (b : Booking) :
    (completeIfMatch v b).id = b.id := by
  unfold completeIfMatch
  split <;> rfl

theorem completeIfMatch_idem (v : JVal) (b : Booking) :
    completeIfMatch v (completeIfMatch v b) = completeIfMatch v b := by
  unfold completeIfMatch
  by_cases h : idMatches v b.id = true
  · simp [h]
  · simp [h]

/-- C3: `POST /api/payments/confirm` answers 400 when `bookingId` is missing;
404 with the store unchanged when no booking row matches; and when a row
matches, every matching row's `payment_status` is set to `"completed"`
unconditionally, the response is 200, and a second confirm on the same id
returns the very same 200 response with the state unchanged. -/
theorem confirm_payment_spec (s : Store) (v : JVal) :
    (v.truthy = false →
      confirmPayment s v =
        (s, .resp 400 (.errObj "Booking ID is required to confirm payment."))) ∧
    (v.truthy = true → (∀ b ∈ s.bookings, idMatches v b.id = false) →
      confirmPayment s v =
        (s, .resp 404 (.errObj ("Booking with ID " ++ v.display ++
          " not found for payment confirmation.")))) ∧
    (v.truthy = true → ∀ b0 ∈ s.bookings, idMatches v b0.id = true →
      confirmPayment s v =
        ({ s with bookings := s.bookings.map (completeIfMatch v) },
         .resp 200 (.msgObj ("Payment for booking ID " ++ v.display ++
           " confirmed successfully."))) ∧
      (∀ b' ∈ (confirmPayment s v).1.bookings, idMatches v b'.id = true →
        b'.payment_status = "completed") ∧
      confirmPayment (confirmPayment s v).1 v =
        ((confirmPayment s v).1, (confirmPayment s v).2)) := by
  refine ⟨?_, ?_, ?_⟩
  · intro hv
    unfold confirmPayment
    simp [hv]
  · intro hv hnone
    have hall : s.bookings.all (fun b => !(idMatches v b.id)) = true := by
      rw [List.all_eq_true]
      intro b hb
      simp [hnone b hb]
    unfold confirmPayment
    simp [hv, hall]
  · intro hv b0 hb0 hm
    have hall : s.bookings.all (fun b => !(idMatches v b.id)) = false := by
      apply Bool.eq_false_iff.mpr
      intro hforall
      rw [List.all_eq_true] at hforall
      have := hforall b0 hb0
      simp [hm] at this
    have hmain : confirmPayment s v =
        ({ s with bookings := s.bookings.map (completeIfMatch v) },
         .resp 200 (.msgObj ("Payment for booking ID " ++ v.display ++
           " confirmed successfully."))) := by
      unfold confirmPayment
      simp [hv, hall]
    refine ⟨hmain, ?_, ?_⟩
    · intro b' hb' hm'
      rw [hmain] at hb'
      simp only [List.mem_map] at hb'
      obtain ⟨b1, _, rfl⟩ := hb'
      rw [completeIfMatch_id] at hm'
      unfold completeIfMatch
      simp [hm']
    · have hall2 : (s.bookings.map (completeIfMatch v)).all
          (fun b => !(idMatches v b.id)) = false := by
        apply Bool.eq_false_iff.mpr
        intro hforall
        rw [List.all_eq_true] at hforall
        have hmem : completeIfMatch v b0 ∈ s.bookings.map (completeIfMatch v) :=
          List.mem_map_of_mem _ hb0
        have := hforall _ hmem
        rw [completeIfMatch_id, hm] at this
        simp at this
      have hmapmap : (s.bookings.map (completeIfMatch v)).map (completeIfMatch v) =
          s.bookings.map (completeIfMatch v) := by
        rw [List.map_map]
        apply List.map_congr_left
        intro b _
        exact completeIfMatch_idem v b
      rw [hmain]
      unfold confirmPayment
      simp [hv, hall2, hmapmap]


theorem confirm_payment_spec_witness :
    confirmPayment storeWithBooking (.num 1) =
      ({ storeWithBooking with
          bookings := storeWithBooking.bookings.map (completeIfMatch (.num 1)) },
       .resp 200 (.msgObj ("Payment for booking ID " ++ (JVal.num 1).display ++
         " confirmed successfully."))) :=
  ((confirm_payment_spec storeWithBooking (.num 1)).2.2 rfl
    (newBookingRow Store.init sampleBookingReq) (by decide) (by decide)).1

/-- C6: `DELETE /bookings4/:id` answers 404 with a message naming the id and
leaves the store unchanged when no row has the id; when a row matches, the
row is deleted, the response is 200 with a success message, a subsequent
`GET /bookings4` no longer lists the id, and repeating the delete on the same
id answers 404. -/
theorem delete_booking_spec (s : Store) (id : Nat) :
    ((∀ b ∈ s.bookings, b.id ≠ id) →
      deleteBooking s id =
        (s, .resp 404 (.errObj ("Booking with ID " ++ toString id ++ " not found.")))) ∧
    (∀ b0 ∈ s.bookings, b0.id = id →
      (deleteBooking s id).2 =
        .resp 200 (.msgObj ("Booking with ID " ++ toString id ++ " deleted successfully.")) ∧
      (∀ b' ∈ listedBookings (deleteBooking s id).1, b'.id ≠ id) ∧
      deleteBooking (deleteBooking s id).1 id =
        ((deleteBooking s id).1,
         .resp 404 (.errObj ("Booking with ID " ++ toString id ++ " not found.")))) := by
  constructor
  · intro h
    have hall : s.bookings.all (fun b => b.id != id) = true := by
      rw [List.all_eq_true]
      intro b hb
      simpa using h b hb
    unfold deleteBooking
    simp [hall]
  · intro b0 hb0 hid
    have hall : s.bookings.all (fun b => b.id != id) = false := by
      apply Bool.eq_false_iff.mpr
      intro hforall
      rw [List.all_eq_true] at hforall
      have := hforall b0 hb0
      simp [hid] at this
    have hmain : deleteBooking s id =
        ({ s with bookings := s.bookings.filter (fun b => b.id != id) },
         .resp 200 (.msgObj ("Booking with ID " ++ toString id ++ " deleted successfully."))) := by
      unfold deleteBooking
      simp [hall]
    refine ⟨by rw [hmain], ?_, ?_⟩
    · intro b' hb'
      rw [hmain] at hb'
      unfold listedBookings at hb'
      have hmem : b' ∈ (s.bookings.filter (fun b => b.id != id)) :=
        (List.perm_insertionSort dtGe _).mem_iff.mp hb'
      have := (List.mem_filter.mp hmem).2
      simpa using this
    · have hall2 : (s.bookings.filter (fun b => b.id != id)).all
          (fun b => b.id != id) = true := by
        rw [List.all_eq_true]
        intro b hb
        exact (List.mem_filter.mp hb).2
      rw [hmain]
      unfold deleteBooking
      simp [hall2]

theorem delete_booking_spec_witness :
    (deleteBooking storeWithBooking 1).2 =
      .resp 200 (.msgObj ("Booking with ID " ++ toString 1 ++ " deleted successfully.")) ∧
    deleteBooking Store.init 1 =
      (Store.init, .resp 404 (.errObj ("Booking with ID " ++ toString 1 ++ " not found."))) :=
  ⟨((delete_booking_spec storeWithBooking 1).2 (newBookingRow Store.init sampleBookingReq)
      (by decide) rfl).1,
   (delete_booking_spec Store.init 1).1 (fun b hb => absurd hb (List.not_mem_nil b))⟩


/-- Status of `POST /api/testimonials` for a numeric rating, when all other
required fields are present: 201 exactly when the rating lies in `[1, 5]`. -/
theorem postTestimonial_statusOf_num (s : Store) (r : TestimonialReq) (q : ℚ)
    (hname : r.reviewerName.truthy = true) (hemail : r.reviewerEmail.truthy = true)
    (htext : r.reviewText.truthy = true) (hgo : r.genuineOpinion ≠ JVal.undef)
    (hq : r.rating = JVal.num q) :
    (postTestimonial s r).2.statusOf =
      if 1 ≤ q ∧ q ≤ 5 then some 201 else some 400 := by
  have hgo' : (r.genuineOpinion == JVal.undef) = false := by simpa using hgo
  unfold postTestimonial
  rw [hname, hemail, htext, hq, hgo']
  by_cases hq0 : q = 0
  · subst hq0
    have ht : (JVal.num 0).truthy = false := by norm_num [JVal.truthy]
    simp [ht, Outcome.statusOf]
    norm_num
  · have ht : (JVal.num q).truthy = true := by simp [JVal.truthy, hq0]
    by_cases h1 : q < 1
    · have hlt : (JVal.num q).ltNum 1 = true := by
        simp [JVal.ltNum, JVal.toNumber, h1]
      simp [ht, hlt, Outcome.statusOf]
      rw [if_neg (show ¬(1 ≤ q ∧ q ≤ 5) from fun hc => absurd h1 (not_lt.mpr hc.1))]
    · have hlt : (JVal.num q).ltNum 1 = false := by
        simp [JVal.ltNum, JVal.toNumber, h1]
      by_cases h5 : 5 < q
      · have hgt : (JVal.num q).gtNum 5 = true := by
          simp [JVal.gtNum, JVal.toNumber, h5]
        simp [ht, hlt, hgt, Outcome.statusOf]
        rw [if_neg (show ¬(1 ≤ q ∧ q ≤ 5) from fun hc => absurd h5 (not_lt.mpr hc.2))]
      · have hgt : (JVal.num q).gtNum 5 = false := by
          simp [JVal.gtNum, JVal.toNumber, h5]
        simp [ht, hlt, hgt, Outcome.statusOf]
        rw [if_pos (show 1 ≤ q ∧ q ≤ 5 from ⟨not_lt.mp h1, not_lt.mp h5⟩)]

/-- C5 as stated is false: a rating of `5/2` is not an integer, yet the
request passes validation and is accepted with 201 — the handler checks only
the range `rating < 1 || rating > 5`, never integrality. -/
theorem testimonial_noninteger_rating_accepted :
    (5 / 2 : ℚ).den ≠ 1 ∧
    (postTestimonial Store.init (ratingReqWith (.num (5 / 2)))).2.statusOf = some 201 := by
  constructor
  · norm_num
  · rw [postTestimonial_statusOf_num Store.init (ratingReqWith (.num (5 / 2))) (5 / 2)
      rfl rfl rfl (by decide) rfl]
    rw [if_pos (by norm_num)]

/-- C5 (amended): with the other required fields present, a numeric rating is
rejected with 400 unless it lies in the range `[1, 5]` — with no integrality
check, so non-integer in-range ratings are accepted; in particular rating 0
and rating 6 are rejected with 400 and ratings 1 and 5 are accepted. -/
theorem testimonial_rating_range (s : Store) (r : TestimonialReq) (q : ℚ)
    (hname : r.reviewerName.truthy = true) (hemail : r.reviewerEmail.truthy = true)
    (htext : r.reviewText.truthy = true) (hgo : r.genuineOpinion ≠ JVal.undef)
    (hq : r.rating = JVal.num q) :
    ((postTestimonial s r).2.statusOf = some 201 ↔ 1 ≤ q ∧ q ≤ 5) ∧
    ((postTestimonial s r).2.statusOf = some 400 ↔ ¬(1 ≤ q ∧ q ≤ 5)) := by
  rw [postTestimonial_statusOf_num s r q hname hemail htext hgo hq]
  by_cases hin : 1 ≤ q ∧ q ≤ 5
  · simp [hin]
  · simp [hin]

theorem testimonial_rating_range_witness :
    (postTestimonial Store.init (ratingReqWith (.num 1))).2.statusOf = some 201 :=
  ((testimonial_rating_range Store.init (ratingReqWith (.num 1)) 1 rfl rfl rfl
      (by decide) rfl).1).mpr (by norm_num)

/-- C10: with the other required fields valid, a `genuineOpinion` equal to
`false`, `null`, or any value other than `undefined` passes the presence
check (`genuineOpinion === undefined`) and the request is accepted with 201;
each of `reviewerName`, `reviewerEmail`, `reviewText` and `rating` is instead
checked with `!field`, so every falsy value for any of them is rejected
with 400. -/
theorem testimonial_genuine_opinion_presence (s : Store) (r : TestimonialReq)
    (hname : r.reviewerName.truthy = true) (hemail : r.reviewerEmail.truthy = true)
    (htext : r.reviewText.truthy = true) (hrating : r.rating.truthy = true)
    (hlt : r.rating.ltNum 1 = false) (hgt : r.rating.gtNum 5 = false) :
    (r.genuineOpinion ≠ JVal.undef → (postTestimonial s r).2.statusOf = some 201) ∧
    (∀ v : JVal, v.truthy = false →
      (postTestimonial s { r with reviewerName := v }).2.statusOf = some 400 ∧
      (postTestimonial s { r with reviewerEmail := v }).2.statusOf = some 400 ∧
      (postTestimonial s { r with reviewText := v }).2.statusOf = some 400 ∧
      (postTestimonial s { r with rating := v }).2.statusOf = some 400) := by
  constructor
  · intro hgo
    have hgo' : (r.genuineOpinion == JVal.undef) = false := by simpa using hgo
    unfold postTestimonial
    rw [hname, hemail, htext, hrating, hgo', hlt, hgt]
    simp [Outcome.statusOf]
  · intro v hv
    refine ⟨?_, ?_, ?_, ?_⟩ <;>
    · unfold postTestimonial
      simp [hv, hname, hemail, htext, hrating, Outcome.statusOf]

theorem testimonial_genuine_opinion_presence_witness :
    (postTestimonial Store.init (ratingReqWith (.num 5))).2.statusOf = some 201 ∧
    (postTestimonial Store.init
        { ratingReqWith (.num 5) with rating := JVal.null }).2.statusOf = some 400 :=
  ⟨(testimonial_genuine_opinion_presence Store.init (ratingReqWith (.num 5))
      rfl rfl rfl rfl rfl rfl).1 (by decide),
   ((testimonial_genuine_opinion_presence Store.init (ratingReqWith (.num 5))
      rfl rfl rfl rfl rfl rfl).2 JVal.null rfl).2.2.2⟩

/-! ## Store-effect lemmas and the reachability invariant -/

theorem postBooking_store (s : Store) (r : BookingReq) :
    (postBooking s r).1 = s ∨
    (postBooking s r).1 =
      { s with bookings := s.bookings ++ [newBookingRow s r],
               nextBookingId := s.nextBookingId + 1 } := by
  rw [postBooking_eq]
  split
  · exact Or.inl rfl
  · exact Or.inr rfl

theorem deleteBooking_store (s : Store) (id : Nat) :
    (deleteBooking s id).1 = s ∨
    (deleteBooking s id).1 =
      { s with bookings := s.bookings.filter (fun b => b.id != id) } := by
  unfold deleteBooking
  split
  · exact Or.inl rfl
  · exact Or.inr rfl

theorem confirmPayment_store (s : Store) (v : JVal) :
    (confirmPayment s v).1 = s ∨
    (confirmPayment s v).1 =
      { s with bookings := s.bookings.map (completeIfMatch v) } := by
  unfold confirmPayment
  split
  · exact Or.inl rfl
  · split
    · exact Or.inl rfl
    · exact Or.inr rfl

theorem postTestimonial_bookings (s : Store) (r : TestimonialReq) :
    (postTestimonial s r).1.bookings = s.bookings ∧
    (postTestimonial s r).1.nextBookingId = s.nextBookingId := by
  unfold postTestimonial
  split
  · exact ⟨rfl, rfl⟩
  · split
    · exact ⟨rfl, rfl⟩
    · exact ⟨rfl, rfl⟩

theorem deleteTestimonial_bookings (s : Store) (id : Nat) :
    (deleteTestimonial s id).1.bookings = s.bookings ∧
    (deleteTestimonial s id).1.nextBookingId = s.nextBookingId := by
  unfold deleteTestimonial
  split
  · exact ⟨rfl, rfl⟩
  · exact ⟨rfl, rfl⟩


theorem storeInv_init : StoreInv Store.init := by
  refine ⟨?_, ?_, ?_⟩ <;> simp [Store.init]

theorem storeInv_applyOp {s : Store} (h : StoreInv s) (op : Op) :
    StoreInv (applyOp s op) := by
  obtain ⟨hlt, hnd, hst⟩ := h
  cases op with
  | listB => exact ⟨hlt, hnd, hst⟩
  | listT => exact ⟨hlt, hnd, hst⟩
  | tick t => exact ⟨hlt, hnd, hst⟩
  | initiate r => exact ⟨hlt, hnd, hst⟩
  | createB r =>
      simp only [applyOp]
      rcases postBooking_store s r with heq | heq
      · rw [heq]
        exact ⟨hlt, hnd, hst⟩
      · rw [heq]
        refine ⟨?_, ?_, ?_⟩
        · intro b hb
          rcases List.mem_append.mp hb with hb | hb
          · exact Nat.lt_succ_of_lt (hlt b hb)
          · rw [List.mem_singleton.mp hb]
            exact Nat.lt_succ_self _
        · rw [List.map_append]
          refine List.Nodup.append hnd (List.nodup_singleton _) ?_
          intro a ha hb
          obtain ⟨b, hbmem, rfl⟩ := List.mem_map.mp ha
          have h1 := hlt b hbmem
          have h2 : b.id = s.nextBookingId := by
            simpa [newBookingRow] using List.mem_singleton.mp hb
          rw [h2] at h1
          exact lt_irrefl _ h1
        · intro b hb
          rcases List.mem_append.mp hb with hb | hb
          · exact hst b hb
          · rw [List.mem_singleton.mp hb]
            exact Or.inl rfl
  | delB id =>
      simp only [applyOp]
      rcases deleteBooking_store s id with heq | heq
      · rw [heq]
        exact ⟨hlt, hnd, hst⟩
      · rw [heq]
        refine ⟨?_, ?_, ?_⟩
        · intro b hb
          exact hlt b (List.mem_of_mem_filter hb)
        · exact List.Nodup.sublist (List.Sublist.map _ (List.filter_sublist _)) hnd
        · intro b hb
          exact hst b (List.mem_of_mem_filter hb)
  | confirm v =>
      simp only [applyOp]
      rcases confirmPayment_store s v with heq | heq
      · rw [heq]
        exact ⟨hlt, hnd, hst⟩
      · rw [heq]
        refine ⟨?_, ?_, ?_⟩
        · intro b hb
          obtain ⟨b1, hb1, rfl⟩ := List.mem_map.mp hb
          rw [completeIfMatch_id]
          exact hlt b1 hb1
        · rw [List.map_map]
          have : ((fun b => b.id) ∘ completeIfMatch v) = (fun b : Booking => b.id) := by
            funext b
            exact completeIfMatch_id v b
          rw [this]
          exact hnd
        · intro b hb
          obtain ⟨b1, hb1, rfl⟩ := List.mem_map.mp hb
          unfold completeIfMatch
          split
          · exact Or.inr rfl
          · exact hst b1 hb1
  | createT r =>
      simp only [applyOp]
      obtain ⟨hb, hn⟩ := postTestimonial_bookings s r
      unfold StoreInv
      rw [hb, hn]
      exact ⟨hlt, hnd, hst⟩
  | delT id =>
      simp only [applyOp]
      obtain ⟨hb, hn⟩ := deleteTestimonial_bookings s id
      unfold StoreInv
      rw [hb, hn]
      exact ⟨hlt, hnd, hst⟩

theorem reachable_storeInv {s : Store} (h : Reachable s) : StoreInv s := by
  unfold Reachable at h
  induction h with
  | refl => exact storeInv_init
  | tail hr hstep ih =>
      obtain ⟨op, rfl⟩ := hstep
      exact storeInv_applyOp ih op

theorem booking_id_inj {s : Store} (h : StoreInv s) {a b : Booking}
    (ha : a ∈ s.bookings) (hb : b ∈ s.bookings) (hid : a.id = b.id) : a = b :=
  List.inj_on_of_nodup_map h.2.1 ha hb hid

/-- C2: in every reachable store state every booking row's `payment_status`
is `"pending"` or `"completed"`; a row that a request newly creates starts
as `"pending"`; and across any single request, a row present before and
after either keeps its status or moves from `"pending"` to `"completed"`,
the latter only on a payment-confirmation request — never the reverse. -/
theorem payment_status_invariant (s : Store) (h : Reachable s) :
    (∀ b ∈ s.bookings, b.payment_status = "pending" ∨ b.payment_status = "completed") ∧
    (∀ op : Op, ∀ b' ∈ (applyOp s op).bookings,
      (∀ b ∈ s.bookings, b.id = b'.id →
        b'.payment_status = b.payment_status ∨
          (op.isConfirm = true ∧ b.payment_status = "pending" ∧
           b'.payment_status = "completed")) ∧
      ((∀ b ∈ s.bookings, b.id ≠ b'.id) → b'.payment_status = "pending")) := by
  have hinv := reachable_storeInv h
  obtain ⟨hlt, hnd, hst⟩ := hinv
  refine ⟨hst, ?_⟩
  have hgen : ∀ (P : Prop), ∀ b' ∈ s.bookings,
      (∀ b ∈ s.bookings, b.id = b'.id →
        b'.payment_status = b.payment_status ∨
          (P ∧ b.payment_status = "pending" ∧ b'.payment_status = "completed")) ∧
      ((∀ b ∈ s.bookings, b.id ≠ b'.id) → b'.payment_status = "pending") := by
    intro P b' hb'
    constructor
    · intro b hb hid
      have hbb : b = b' := booking_id_inj ⟨hlt, hnd, hst⟩ hb hb' hid
      subst hbb
      exact Or.inl rfl
    · intro hall
      exact absurd rfl (hall b' hb')
  intro op b' hb'
  cases op with
  | listB => exact hgen _ b' hb'
  | listT => exact hgen _ b' hb'
  | tick t => exact hgen _ b' hb'
  | initiate r => exact hgen _ b' hb'
  | createT r =>
      simp only [applyOp] at hb'
      rw [(postTestimonial_bookings s r).1] at hb'
      exact hgen _ b' hb'
  | delT id =>
      simp only [applyOp] at hb'
      rw [(deleteTestimonial_bookings s id).1] at hb'
      exact hgen _ b' hb'
  | delB id =>
      simp only [applyOp] at hb'
      rcases deleteBooking_store s id with heq | heq <;> rw [heq] at hb'
      · exact hgen _ b' hb'
      · exact hgen _ b' (List.mem_of_mem_filter hb')
  | createB r =>
      simp only [applyOp] at hb'
      rcases postBooking_store s r with heq | heq <;> rw [heq] at hb'
      · exact hgen _ b' hb'
      · rcases List.mem_append.mp hb' with hmem | hmem
        · exact hgen _ b' hmem
        · rw [List.mem_singleton.mp hmem]
          constructor
          · intro b hb hid
            have h1 := hlt b hb
            rw [hid] at h1
            simp [newBookingRow] at h1
          · intro _
            rfl
  | confirm v =>
      simp only [applyOp] at hb'
      rcases confirmPayment_store s v with heq | heq <;> rw [heq] at hb'
      · exact hgen _ b' hb'
      · obtain ⟨b1, hb1, rfl⟩ := List.mem_map.mp hb'
        constructor
        · intro b hb hid
          rw [completeIfMatch_id] at hid
          have hbb : b = b1 := booking_id_inj ⟨hlt, hnd, hst⟩ hb hb1 hid
          subst hbb
          unfold completeIfMatch
          split
          · rcases hst b hb with hp | hc
            · exact Or.inr ⟨rfl, hp, rfl⟩
            · left
              rw [hc]
          · exact Or.inl rfl
        · intro hall
          have := hall b1 hb1
          rw [completeIfMatch_id] at this
          exact absurd rfl this

theorem payment_status_invariant_witness :
    (newBookingRow Store.init sampleBookingReq).payment_status = "pending" ∨
    (newBookingRow Store.init sampleBookingReq).payment_status = "completed" :=
  (payment_status_invariant storeWithBooking
      (Relation.ReflTransGen.single ⟨Op.createB sampleBookingReq, rfl⟩)).1
    (newBookingRow Store.init sampleBookingReq) (by decide)

/-- C7: for every reachable store state, `GET /bookings4` responds 200 with
exactly the booking rows (a permutation of the table) sorted by `datetime`
descending; and after any successful booking creation, the created booking's
id occurs exactly once in a subsequent `GET /bookings4` listing. -/
theorem list_bookings_spec (s : Store) (h : Reachable s) :
    (getBookings s = .resp 200 (.bookingList (listedBookings s)) ∧
     s.bookings.Perm (listedBookings s) ∧ (listedBookings s).Sorted dtGe) ∧
    (∀ r : BookingReq, ∀ row : Booking,
      (postBooking s r).2 = .resp 201 (.bookingObj row) →
      (listedBookings (postBooking s r).1).countP (fun b => b.id == row.id) = 1) := by
  have hinv := reachable_storeInv h
  refine ⟨⟨rfl, ?_, ?_⟩, ?_⟩
  · exact (List.perm_insertionSort dtGe s.bookings).symm
  · exact List.sorted_insertionSort dtGe s.bookings
  · intro r row hrow
    by_cases hv : validBookingReq r = false
    · rw [postBooking_eq, if_pos hv] at hrow
      simp at hrow
    · rw [postBooking_eq, if_neg hv] at hrow
      have hrow' : newBookingRow s r = row := by
        simpa using hrow
      subst hrow'
      have hgoal : (listedBookings (postBooking s r).1).countP
          (fun b => b.id == (newBookingRow s r).id) =
          (s.bookings ++ [newBookingRow s r]).countP
          (fun b => b.id == (newBookingRow s r).id) := by
        unfold listedBookings
        rw [postBooking_eq, if_neg hv]
        exact (List.perm_insertionSort dtGe _).countP_eq _
      rw [hgoal, List.countP_append]
      have h0 : s.bookings.countP (fun b => b.id == (newBookingRow s r).id) = 0 := by
        rw [List.countP_eq_zero]
        intro b hb
        have hblt := hinv.1 b hb
        simp only [newBookingRow] at hblt ⊢
        intro hbe
        have hbeq : b.id = s.nextBookingId := by simpa using hbe
        rw [hbeq] at hblt
        exact lt_irrefl _ hblt
      rw [h0]
      simp

theorem list_bookings_spec_witness :
    (listedBookings (postBooking Store.init sampleBookingReq).1).countP
      (fun b => b.id == (newBookingRow Store.init sampleBookingReq).id) = 1 :=
  (list_bookings_spec Store.init Relation.ReflTransGen.refl).2 sampleBookingReq
    (newBookingRow Store.init sampleBookingReq) rfl
